import Mathlib

/-!
Verification development for the PDF test generator and evaluator backend.

The data model mirrors `models.py`; operations mirror `test_generator.py`
(`create_test_session`, `start_test_session`), `evaluator.py`
(`evaluate_submission`), `gemini_service.py` (`_gemini_evaluate`,
`_safe_json_loads`) and `main.py` (`retry_test`, `submit_test`).

Modelling conventions:
- timestamps (`datetime.utcnow()`) are `Nat` values passed in explicitly;
- Python `dict.get` results are `Option`;
- a Python call that may raise is modelled as returning `Option`, `none`
  standing for an escaped exception;
- `random.shuffle` is modelled as an arbitrary function
  `shuffle : List Question → List Question` assumed to permute its input;
- the database is an explicit `DBState` record of row lists, with
  autoincrement ids modelled by a `nextSessionId` counter;
- Python `float` arithmetic is modelled over `ℚ`.
-/

/-- Row of the `questions` table (`models.Question`). `options` is a nullable
JSON mapping letter → text, modelled as an association list. -/
structure Question where
  id : Nat
  number : Nat
  text : String
  options : Option (List (String × String))
  source_name : Option String
deriving DecidableEq

/-- Row of the `test_sessions` table (`models.TestSession`). -/
structure TestSession where
  id : Nat
  total_questions : Nat
  duration_minutes : Option Nat
  started_at : Option Nat
  submitted_at : Option Nat
deriving DecidableEq

/-- Row of the `test_questions` link table (`models.TestQuestion`). -/
structure TestQuestion where
  test_id : Nat
  question_id : Nat
  order_index : Nat
  bookmarked : Bool := false
deriving DecidableEq

/-- Row of the `answers` table (`models.Answer`). -/
structure AnswerRec where
  test_id : Nat
  question_id : Nat
  selected_option : Option String
deriving DecidableEq

/-- One entry of the `details` JSON list built by `evaluate_submission`. -/
structure Detail where
  question_id : Nat
  user_answer : Option String
  correct_answer : String
  is_correct : Bool
  explanation : String
deriving DecidableEq

/-- Row of the `results` table (`models.Result`). `score` and `accuracy`
are Python floats, modelled over `ℚ`. -/
structure ResultRec where
  test_id : Nat
  score : ℚ
  correct_count : Nat
  wrong_count : Nat
  accuracy : ℚ
  details : List Detail
deriving DecidableEq

/-- The value returned by the judge (`gemini_service.evaluate_answer`). -/
structure Evaluation where
  correct_answer : String
  is_correct : Bool
  explanation : String
deriving DecidableEq

/-- Model of `test_generator.start_test_session`: stores `duration_minutes` and
unconditionally stamps `started_at` with the current time. -/
def start_test_session (session : TestSession) (duration_minutes : Nat)
    (now : Nat) : TestSession :=
  { session with duration_minutes := some duration_minutes, started_at := some now }

/-- Model of `test_generator.create_test_session`, pure core: builds the session row
(`total_questions = len(questions)`) and one link row per shuffled question
with `order_index` given by `enumerate`. The DB-assigned session id is the
`sessionId` argument. -/
def create_test_session (shuffle : List Question → List Question)
    (sessionId : Nat) (questions : List Question) :
    TestSession × List TestQuestion :=
  let session : TestSession :=
    { id := sessionId, total_questions := questions.length,
      duration_minutes := none, started_at := none, submitted_at := none }
  let shuffled := shuffle questions
  let links := shuffled.enum.map fun p =>
    { test_id := sessionId, question_id := p.2.id, order_index := p.1 : TestQuestion }
  (session, links)

/-- C1. The claim states that a second invocation of start leaves
`started_at` unchanged from the value set by the first invocation. The code
(`test_generator.start_test_session`) sets `started_at = datetime.utcnow()`
unconditionally, so a second start at a later clock value resets it: on a
fresh session started at time 5 and started again at time 9, `started_at`
after the second call differs from its value after the first call. -/
theorem start_test_session_resets_started_at :
    (start_test_session
        (start_test_session
          { id := 1, total_questions := 3, duration_minutes := none,
            started_at := none, submitted_at := none } 30 5) 45 9).started_at
      ≠ (start_test_session
          { id := 1, total_questions := 3, duration_minutes := none,
            started_at := none, submitted_at := none } 30 5).started_at := by
  decide

/-- Mapping a function of the second components over `l.enum` is the same as
mapping it over `l` itself. -/
theorem enum_map_snd_comp {α β : Type _} (f : α → β) (l : List α) :
    l.enum.map (fun p => f p.2) = l.map f := by
  have h := congrArg (List.map f) (List.enum_map_snd l)
  rw [List.map_map] at h
  exact h

/-- C6. `create_test_session` sets `total_questions` to the number of input
questions; the links it creates carry the input questions' ids as a
permutation, and their `order_index` values are exactly `0..N-1` in order. -/
theorem create_test_session_spec (shuffle : List Question → List Question)
    (sessionId : Nat) (questions : List Question)
    (hshuffle : (shuffle questions).Perm questions) :
    (create_test_session shuffle sessionId questions).1.total_questions
        = questions.length
      ∧ ((create_test_session shuffle sessionId questions).2.map
            (fun l => l.question_id)).Perm (questions.map (fun q => q.id))
      ∧ (create_test_session shuffle sessionId questions).2.map
            (fun l => l.order_index)
          = List.range questions.length := by
  refine ⟨rfl, ?_, ?_⟩
  · have h1 : (create_test_session shuffle sessionId questions).2.map
        (fun l => l.question_id)
        = (shuffle questions).map (fun q => q.id) := by
      show ((shuffle questions).enum.map _).map _ = _
      rw [List.map_map]
      exact enum_map_snd_comp (fun q => q.id) (shuffle questions)
    rw [h1]
    exact hshuffle.map (fun q => q.id)
  · have h1 : (create_test_session shuffle sessionId questions).2.map
        (fun l => l.order_index)
        = List.range (shuffle questions).length := by
      show ((shuffle questions).enum.map _).map _ = _
      rw [List.map_map]
      exact List.enum_map_fst (shuffle questions)
    rw [h1, hshuffle.length_eq]

/-- Witness for C6 at a concrete input: two questions, identity shuffle. -/
theorem create_test_session_spec_witness :
    (create_test_session id 7
        [{ id := 10, number := 1, text := "q1", options := none, source_name := none },
         { id := 20, number := 2, text := "q2", options := none, source_name := none }]).1.total_questions
      = 2
    ∧ ((create_test_session id 7
        [{ id := 10, number := 1, text := "q1", options := none, source_name := none },
         { id := 20, number := 2, text := "q2", options := none, source_name := none }]).2.map
          (fun l => l.question_id)).Perm [10, 20]
    ∧ (create_test_session id 7
        [{ id := 10, number := 1, text := "q1", options := none, source_name := none },
         { id := 20, number := 2, text := "q2", options := none, source_name := none }]).2.map
          (fun l => l.order_index)
      = List.range 2 := by
  have h := create_test_session_spec id 7
    [{ id := 10, number := 1, text := "q1", options := none, source_name := none },
     { id := 20, number := 2, text := "q2", options := none, source_name := none }]
    (List.Perm.refl _)
  simpa using h

/-- A link row of the ordered query in `evaluate_submission`, joined with the
question it references (`link.question` in SQLAlchemy). -/
structure LinkRow where
  link : TestQuestion
  question : Question
deriving DecidableEq

/-- The judge capability (`gemini_service.evaluate_answer`): called with
question text, options mapping and the submitted answer; `none` models the
call raising an exception. -/
def Judge : Type :=
  String → List (String × String) → String → Option Evaluation

/-- The `order_by(TestQuestion.order_index)` of the session query in
`evaluate_submission`. -/
def orderedRows (rows : List LinkRow) : List LinkRow :=
  List.insertionSort (fun a b => a.link.order_index ≤ b.link.order_index) rows

/-- The per-question body of the loop in `evaluate_submission`: call the
judge inside try/except, fall back to the deterministic outcome on an
exception, and build the `details` entry. -/
def detailFor (judge : Judge) (answers : Nat → Option String) (lr : LinkRow) :
    Detail :=
  match judge lr.question.text (lr.question.options.getD [])
      ((answers lr.question.id).getD ("")) with
  | some evaluation =>
      { question_id := lr.question.id, user_answer := answers lr.question.id,
        correct_answer := evaluation.correct_answer,
        is_correct := evaluation.is_correct,
        explanation := evaluation.explanation }
  | none =>
      { question_id := lr.question.id, user_answer := answers lr.question.id,
        correct_answer := "A", is_correct := false,
        explanation := "Evaluation failed. Please check Gemini configuration." }

/-- Model of `evaluator.evaluate_submission`, pure core: grade the session's rows in
`order_index` order, accumulate `details`, the `Answer` rows, and the
summary statistics, and build the `Result` row. -/
def evaluate_submission (judge : Judge) (tid : Nat) (rows : List LinkRow)
    (answers : Nat → Option String) : ResultRec × List AnswerRec :=
  let ordered := orderedRows rows
  let details := ordered.map (detailFor judge answers)
  let correct_count := (details.filter (fun d => d.is_correct)).length
  let total := ordered.length
  let wrong_count := total - correct_count
  let accuracy : ℚ :=
    if total ≠ 0 then ((correct_count : ℚ) / (total : ℚ)) * 100 else 0
  ({ test_id := tid, score := (correct_count : ℚ),
     correct_count := correct_count, wrong_count := wrong_count,
     accuracy := accuracy, details := details },
   ordered.map fun lr =>
     { test_id := tid, question_id := lr.question.id,
       selected_option := answers lr.question.id })

/-- C3. For every `Result` of `evaluate_submission`: `correct_count` plus
`wrong_count` equals the number of graded questions, which equals
`len(details)`; `accuracy` is `100 * correct_count / total` when the total
is positive and `0` when it is zero; and an empty session yields accuracy
`0` with empty details. -/
theorem evaluate_submission_counts (judge : Judge) (tid : Nat)
    (rows : List LinkRow) (answers : Nat → Option String) :
    (evaluate_submission judge tid rows answers).1.correct_count
          + (evaluate_submission judge tid rows answers).1.wrong_count
        = (evaluate_submission judge tid rows answers).1.details.length
      ∧ (evaluate_submission judge tid rows answers).1.details.length
        = rows.length
      ∧ (evaluate_submission judge tid rows answers).1.accuracy
        = (if 0 < (evaluate_submission judge tid rows answers).1.details.length
            then 100 * ((evaluate_submission judge tid rows answers).1.correct_count : ℚ)
              / ((evaluate_submission judge tid rows answers).1.details.length : ℚ)
            else 0)
      ∧ (evaluate_submission judge tid [] answers).1.accuracy = 0
      ∧ (evaluate_submission judge tid [] answers).1.details = [] := by
  have hlen : (orderedRows rows).length = rows.length :=
    (List.perm_insertionSort _ rows).length_eq
  have hle : ((orderedRows rows).map (detailFor judge answers)
        |>.filter (fun d => d.is_correct)).length
      ≤ (orderedRows rows).length := by
    calc ((orderedRows rows).map (detailFor judge answers)
          |>.filter (fun d => d.is_correct)).length
        ≤ ((orderedRows rows).map (detailFor judge answers)).length :=
          List.length_filter_le _ _
      _ = (orderedRows rows).length := List.length_map _ _
  refine ⟨?_, ?_, ?_, ?_, ?_⟩
  · simp only [evaluate_submission, List.length_map]
    exact Nat.add_sub_cancel' hle
  · simp only [evaluate_submission, List.length_map]
    exact hlen
  · simp only [evaluate_submission, List.length_map]
    by_cases h : (orderedRows rows).length = 0
    · simp [h]
    · have hpos : 0 < (orderedRows rows).length := Nat.pos_of_ne_zero h
      rw [if_pos h, if_pos hpos]
      ring
  · simp [evaluate_submission, orderedRows, List.insertionSort]
  · simp [evaluate_submission, orderedRows, List.insertionSort]

/-- C10. The `score` field of the `Result` built by `evaluate_submission`
is exactly `float(correct_count)`: the correct count cast to `ℚ`. -/
theorem evaluate_submission_score (judge : Judge) (tid : Nat)
    (rows : List LinkRow) (answers : Nat → Option String) :
    (evaluate_submission judge tid rows answers).1.score
      = ((evaluate_submission judge tid rows answers).1.correct_count : ℚ) := by
  rfl

/-- C2. If the judge call raises for the question at position `i` of the
ordered question list, `evaluate_submission` still returns a `Result`, and
the `details` entry at that position is the deterministic fallback:
`is_correct = false`, `correct_answer = "A"`, non-empty explanation. -/
theorem evaluate_submission_fallback (judge : Judge) (tid : Nat)
    (rows : List LinkRow) (answers : Nat → Option String)
    (i : Nat) (lr : LinkRow)
    (hget : (orderedRows rows)[i]? = some lr)
    (hfail : judge lr.question.text (lr.question.options.getD [])
        ((answers lr.question.id).getD ("")) = none) :
    ∃ d, ((evaluate_submission judge tid rows answers).1.details)[i]? = some d
      ∧ d.is_correct = false
      ∧ d.correct_answer = "A"
      ∧ d.explanation ≠ "" := by
  refine ⟨detailFor judge answers lr, ?_, ?_, ?_, ?_⟩
  · show ((orderedRows rows).map (detailFor judge answers))[i]? = _
    rw [List.getElem?_map, hget]
    rfl
  · simp [detailFor, hfail]
  · simp [detailFor, hfail]
  · simp [detailFor, hfail]

/-- Witness for C2: one question, a judge that always raises. -/
theorem evaluate_submission_fallback_witness :
    ∃ d, ((evaluate_submission (fun _ _ _ => none) 5
          [{ link := { test_id := 5, question_id := 10, order_index := 0 },
             question := { id := 10, number := 1, text := "q", options := none,
                           source_name := none } }]
          (fun _ => none)).1.details)[0]? = some d
      ∧ d.is_correct = false
      ∧ d.correct_answer = "A"
      ∧ d.explanation ≠ "" :=
  evaluate_submission_fallback (fun _ _ _ => none) 5
    [{ link := { test_id := 5, question_id := 10, order_index := 0 },
       question := { id := 10, number := 1, text := "q", options := none,
                     source_name := none } }]
    (fun _ => none) 0
    { link := { test_id := 5, question_id := 10, order_index := 0 },
      question := { id := 10, number := 1, text := "q", options := none,
                    source_name := none } }
    rfl rfl

/-- C4. When a session's links carry a dense `order_index` range `0..N-1`
and each joined row's question is the one its link references, the
`details` sequence of `evaluate_submission` is in `order_index` order:
entry `i` carries the `question_id` of the link whose `order_index` is
`i`. -/
theorem evaluate_submission_details_order (judge : Judge) (tid : Nat)
    (rows : List LinkRow) (answers : Nat → Option String)
    (hdense : (rows.map (fun lr => lr.link.order_index)).Perm
      (List.range rows.length))
    (hjoin : ∀ lr ∈ rows, lr.question.id = lr.link.question_id)
    (i : Nat) (hi : i < rows.length) :
    ∃ lr ∈ rows, lr.link.order_index = i
      ∧ (((evaluate_submission judge tid rows answers).1.details)[i]?).map
          (fun d => d.question_id)
        = some lr.link.question_id := by
  haveI htot : IsTotal LinkRow
      (fun a b => a.link.order_index ≤ b.link.order_index) :=
    ⟨fun a b => Nat.le_total _ _⟩
  haveI htrans : IsTrans LinkRow
      (fun a b => a.link.order_index ≤ b.link.order_index) :=
    ⟨fun _ _ _ => Nat.le_trans⟩
  have hperm : (orderedRows rows).Perm rows := List.perm_insertionSort _ rows
  have hlen : (orderedRows rows).length = rows.length := hperm.length_eq
  have hsorted : List.Sorted
      (fun a b => a.link.order_index ≤ b.link.order_index)
      (orderedRows rows) := List.sorted_insertionSort _ rows
  have hidxsorted : List.Sorted (fun a b => a ≤ b)
      ((orderedRows rows).map (fun lr => lr.link.order_index)) :=
    List.Pairwise.map _ (fun _ _ h => h) hsorted
  have hidxperm : ((orderedRows rows).map
        (fun lr => lr.link.order_index)).Perm (List.range rows.length) :=
    (hperm.map (fun lr => lr.link.order_index)).trans hdense
  have hidx : (orderedRows rows).map (fun lr => lr.link.order_index)
      = List.range rows.length :=
    List.eq_of_perm_of_sorted hidxperm hidxsorted (List.pairwise_le_range _)
  have hi' : i < (orderedRows rows).length := by rw [hlen]; exact hi
  obtain ⟨lr, hlr⟩ : ∃ lr, (orderedRows rows)[i]? = some lr := by
    rw [List.getElem?_eq_getElem hi']
    exact ⟨_, rfl⟩
  refine ⟨lr, hperm.mem_iff.mp (List.getElem?_mem hlr), ?_, ?_⟩
  · have h1 : ((orderedRows rows).map (fun lr => lr.link.order_index))[i]?
        = some lr.link.order_index := by
      rw [List.getElem?_map, hlr]
      rfl
    have h2 : ((orderedRows rows).map (fun lr => lr.link.order_index))[i]?
        = some i := by
      rw [hidx]
      exact List.getElem?_range hi
    rw [h1] at h2
    exact Option.some_injective _ h2
  · have h3 : ((evaluate_submission judge tid rows answers).1.details)[i]?
        = some (detailFor judge answers lr) := by
      show ((orderedRows rows).map (detailFor judge answers))[i]? = _
      rw [List.getElem?_map, hlr]
      rfl
    rw [h3]
    have h4 : (detailFor judge answers lr).question_id = lr.question.id := by
      cases hj : judge lr.question.text (lr.question.options.getD [])
        ((answers lr.question.id).getD ("")) <;> simp [detailFor, hj]
    simp [h4, hjoin lr (hperm.mem_iff.mp (List.getElem?_mem hlr))]

/-- Witness for C4: two questions stored in reversed link order. -/
theorem evaluate_submission_details_order_witness :
    ∃ lr ∈
        ([{ link := { test_id := 5, question_id := 20, order_index := 1 },
            question := { id := 20, number := 2, text := "q2", options := none,
                          source_name := none } },
          { link := { test_id := 5, question_id := 10, order_index := 0 },
            question := { id := 10, number := 1, text := "q1", options := none,
                          source_name := none } }] : List LinkRow),
      lr.link.order_index = 0
      ∧ (((evaluate_submission (fun _ _ _ => none) 5
            [{ link := { test_id := 5, question_id := 20, order_index := 1 },
               question := { id := 20, number := 2, text := "q2", options := none,
                             source_name := none } },
             { link := { test_id := 5, question_id := 10, order_index := 0 },
               question := { id := 10, number := 1, text := "q1", options := none,
                             source_name := none } }]
            (fun _ => none)).1.details)[0]?).map (fun d => d.question_id)
        = some lr.link.question_id :=
  evaluate_submission_details_order (fun _ _ _ => none) 5
    [{ link := { test_id := 5, question_id := 20, order_index := 1 },
       question := { id := 20, number := 2, text := "q2", options := none,
                     source_name := none } },
     { link := { test_id := 5, question_id := 10, order_index := 0 },
       question := { id := 10, number := 1, text := "q1", options := none,
                     source_name := none } }]
    (fun _ => none) (by decide) (by decide) 0 (by decide)

/-- The persistent store: one list per table, plus the autoincrement counter
for session ids. -/
structure DBState where
  questions : List Question
  sessions : List TestSession
  links : List TestQuestion
  results : List ResultRec
  answers : List AnswerRec
  nextSessionId : Nat
deriving DecidableEq

/-- Model of `test_generator.create_test_session` with its persistence effects: adds
the session row (fresh autoincrement id) and its link rows. -/
def create_test_session_db (shuffle : List Question → List Question)
    (db : DBState) (questions : List Question) : TestSession × DBState :=
  let pure := create_test_session shuffle db.nextSessionId questions
  (pure.1,
    { db with
      sessions := db.sessions ++ [pure.1],
      links := db.links ++ pure.2,
      nextSessionId := db.nextSessionId + 1 })

/-- The session query of `main.retry_test` / `main.submit_test`:
`db.query(TestSession).filter(TestSession.id == test_id).first()`. -/
def findSession (db : DBState) (tid : Nat) : Option TestSession :=
  db.sessions.find? (fun s => s.id == tid)

/-- The question list `main.retry_test` collects: for each link of the
session, the question it references (`link.question`). -/
def retryQuestions (db : DBState) (tid : Nat) : List Question :=
  (db.links.filter (fun l => l.test_id == tid)).filterMap
    (fun l => db.questions.find? (fun q => q.id == l.question_id))

/-- Model of `main.retry_test`: load the session (404 when absent as `none`), collect
the questions of its links, and build a new session from them. -/
def retry_test (shuffle : List Question → List Question) (db : DBState)
    (tid : Nat) : Option (TestSession × DBState) :=
  match findSession db tid with
  | none => none
  | some _ => some (create_test_session_db shuffle db (retryQuestions db tid))

/-- The joined, per-session link rows that `evaluate_submission` queries
(`link.question` resolved against the question table). -/
def sessionRows (db : DBState) (tid : Nat) : List LinkRow :=
  (db.links.filter (fun l => l.test_id == tid)).filterMap
    (fun l => (db.questions.find? (fun q => q.id == l.question_id)).map
      (fun q => LinkRow.mk l q))

/-- Model of `main.submit_test` together with the persistence effects of
`evaluator.evaluate_submission`: load the session (404 when absent as
`none`), grade it, append the answer rows and the result row, and stamp
`submitted_at`. -/
def submit_test (judge : Judge) (db : DBState) (tid : Nat)
    (answers : Nat → Option String) (now : Nat) :
    Option (ResultRec × DBState) :=
  match findSession db tid with
  | none => none
  | some _ =>
      let graded := evaluate_submission judge tid (sessionRows db tid) answers
      some (graded.1,
        { db with
          results := db.results ++ [graded.1],
          answers := db.answers ++ graded.2,
          sessions := db.sessions.map
            (fun s => if s.id == tid then { s with submitted_at := some now }
              else s) })

/-- C5. The claim states that submitting the same session a second time
does not silently create a second `Result` row. `submit_test` appends a
fresh `Result` row on every call (the code never checks for an existing
one), so after two submissions of session `1` the results table holds two
rows for `test_id = 1`. -/
theorem submit_test_twice_duplicates_result :
    ∃ r1 db1 r2 db2,
      submit_test (fun _ _ _ => none)
          { questions := [],
            sessions := [{ id := 1, total_questions := 0,
                           duration_minutes := none, started_at := some 3,
                           submitted_at := none }],
            links := [], results := [], answers := [], nextSessionId := 2 }
          1 (fun _ => none) 7 = some (r1, db1)
      ∧ submit_test (fun _ _ _ => none) db1 1 (fun _ => none) 8
          = some (r2, db2)
      ∧ db2.results.map (fun r => r.test_id) = [1, 1] := by
  refine ⟨_, _, _, _, rfl, rfl, ?_⟩
  rfl

/-- Resolving each link's question through `find?` and mapping back to ids
recovers exactly the links' `question_id` values, provided every link
resolves. -/
theorem filterMap_find_ids (qtable : List Question) (ls : List TestQuestion)
    (h : ∀ l ∈ ls, ∃ q ∈ qtable, q.id = l.question_id) :
    (ls.filterMap
        (fun l => qtable.find? (fun q => q.id == l.question_id))).map
        (fun q => q.id)
      = ls.map (fun l => l.question_id) := by
  induction ls with
  | nil => rfl
  | cons l ls ih =>
      obtain ⟨q, hq, hqid⟩ := h l (List.mem_cons_self _ _)
      have hsome : (qtable.find? (fun q => q.id == l.question_id)).isSome := by
        rw [List.find?_isSome]
        exact ⟨q, hq, by simpa using hqid⟩
      obtain ⟨q', hq'⟩ := Option.isSome_iff_exists.mp hsome
      have hq'id : q'.id = l.question_id := by
        simpa using List.find?_some hq'
      simp only [List.filterMap_cons, hq', List.map_cons, hq'id]
      rw [ih (fun x hx => h x (List.mem_cons_of_mem _ hx))]

/-- C8. Retrying an existing session builds a new session whose id differs
from the original's, whose links carry exactly the original session's
question ids (as a set, via a permutation), and leaves the original
session rows, all existing links, every `Result` and every `Answer` row
unmodified. Hypotheses: the session exists, stored ids are below the
autoincrement counter, and every link of the session resolves to a stored
question. -/
theorem retry_test_spec (shuffle : List Question → List Question)
    (db : DBState) (tid : Nat) (orig : TestSession)
    (hshuffle : ∀ l, (shuffle l).Perm l)
    (hfound : findSession db tid = some orig)
    (hfresh : ∀ s ∈ db.sessions, s.id < db.nextSessionId)
    (hlinkfresh : ∀ l ∈ db.links, l.test_id < db.nextSessionId)
    (hresolve : ∀ l ∈ db.links, l.test_id = tid →
      ∃ q ∈ db.questions, q.id = l.question_id) :
    ∃ ns db2, retry_test shuffle db tid = some (ns, db2)
      ∧ ns.id ≠ orig.id
      ∧ ((db2.links.filter (fun l => l.test_id == ns.id)).map
            (fun l => l.question_id)).Perm
          ((db.links.filter (fun l => l.test_id == tid)).map
            (fun l => l.question_id))
      ∧ db2.results = db.results
      ∧ db2.sessions = db.sessions ++ [ns]
      ∧ db2.answers = db.answers := by
  have hr : retry_test shuffle db tid
      = some (create_test_session_db shuffle db (retryQuestions db tid)) := by
    unfold retry_test
    rw [hfound]
  refine ⟨(create_test_session_db shuffle db (retryQuestions db tid)).1,
    (create_test_session_db shuffle db (retryQuestions db tid)).2,
    hr, ?_, ?_, rfl, rfl, rfl⟩
  · exact (hfresh orig (List.mem_of_find?_eq_some hfound)).ne'
  · have hid : (create_test_session_db shuffle db (retryQuestions db tid)).1.id
        = db.nextSessionId := rfl
    have hlinks : (create_test_session_db shuffle db (retryQuestions db tid)).2.links
        = db.links
          ++ (create_test_session shuffle db.nextSessionId
              (retryQuestions db tid)).2 := rfl
    rw [hid, hlinks, List.filter_append]
    have hold : db.links.filter (fun l => l.test_id == db.nextSessionId)
        = [] := by
      rw [List.filter_eq_nil_iff]
      intro l hl
      simpa using (hlinkfresh l hl).ne
    have hnew : ((create_test_session shuffle db.nextSessionId
          (retryQuestions db tid)).2).filter
          (fun l => l.test_id == db.nextSessionId)
        = (create_test_session shuffle db.nextSessionId
            (retryQuestions db tid)).2 := by
      rw [List.filter_eq_self]
      intro l hl
      obtain ⟨p, _, hp⟩ := List.mem_map.mp hl
      rw [← hp]
      simp
    rw [hold, hnew, List.nil_append]
    have e2 : ((create_test_session shuffle db.nextSessionId
          (retryQuestions db tid)).2).map (fun l => l.question_id)
        = (shuffle (retryQuestions db tid)).map (fun q => q.id) := by
      show ((shuffle (retryQuestions db tid)).enum.map _).map _ = _
      rw [List.map_map]
      exact enum_map_snd_comp (fun q : Question => q.id)
        (shuffle (retryQuestions db tid))
    have e3 : (retryQuestions db tid).map (fun q => q.id)
        = (db.links.filter (fun l => l.test_id == tid)).map
            (fun l => l.question_id) :=
      filterMap_find_ids db.questions _
        (fun l hl => hresolve l (List.mem_filter.mp hl).1
          (by simpa using (List.mem_filter.mp hl).2))
    rw [e2, ← e3]
    exact (hshuffle (retryQuestions db tid)).map (fun q => q.id)

/-- Witness for C8: one session holding one question, identity shuffle. -/
theorem retry_test_spec_witness :
    ∃ ns db2,
      retry_test id
          { questions := [{ id := 10, number := 1, text := "q1",
                            options := none, source_name := none }],
            sessions := [{ id := 1, total_questions := 1,
                           duration_minutes := none, started_at := none,
                           submitted_at := none }],
            links := [{ test_id := 1, question_id := 10, order_index := 0 }],
            results := [], answers := [], nextSessionId := 2 }
          1 = some (ns, db2)
      ∧ ns.id ≠ ({ id := 1, total_questions := 1,
                   duration_minutes := none, started_at := none,
                   submitted_at := none } : TestSession).id
      ∧ ((db2.links.filter (fun l => l.test_id == ns.id)).map
            (fun l => l.question_id)).Perm
          ((({ questions := [{ id := 10, number := 1, text := "q1",
                               options := none, source_name := none }],
               sessions := [{ id := 1, total_questions := 1,
                              duration_minutes := none, started_at := none,
                              submitted_at := none }],
               links := [{ test_id := 1, question_id := 10, order_index := 0 }],
               results := [], answers := [], nextSessionId := 2 } : DBState).links.filter
              (fun l => l.test_id == 1)).map (fun l => l.question_id))
      ∧ db2.results = []
      ∧ db2.sessions
        = [{ id := 1, total_questions := 1, duration_minutes := none,
             started_at := none, submitted_at := none }] ++ [ns]
      ∧ db2.answers = [] :=
  retry_test_spec id
    { questions := [{ id := 10, number := 1, text := "q1",
                      options := none, source_name := none }],
      sessions := [{ id := 1, total_questions := 1,
                     duration_minutes := none, started_at := none,
                     submitted_at := none }],
      links := [{ test_id := 1, question_id := 10, order_index := 0 }],
      results := [], answers := [], nextSessionId := 2 }
    1
    { id := 1, total_questions := 1, duration_minutes := none,
      started_at := none, submitted_at := none }
    (fun l => List.Perm.refl l) rfl (by decide) (by decide) (by decide)

/-- Python `str.strip()` on a character list: drop leading and trailing
whitespace. -/
def stripList (s : List Char) : List Char :=
  ((s.dropWhile Char.isWhitespace).reverse.dropWhile Char.isWhitespace).reverse

/-- Python `str.strip()`. -/
def pyStrip (s : String) : String :=
  String.mk (stripList s.toList)

/-- Python `str.replace(pat, repl)` on character lists: replace each
non-overlapping occurrence of `pat`, scanning left to right. The fuel
argument (instantiated with the list length, an upper bound on the number
of steps) makes the recursion structural. -/
def replaceListAux (pat repl : List Char) : Nat → List Char → List Char
  | 0, s => s
  | _ + 1, [] => []
  | fuel + 1, c :: rest =>
      if pat ≠ [] ∧ pat.isPrefixOf (c :: rest) then
        repl ++ replaceListAux pat repl fuel (rest.drop (pat.length - 1))
      else
        c :: replaceListAux pat repl fuel rest

/-- Python `str.replace(pat, repl)`. -/
def pyReplace (s pat repl : String) : String :=
  String.mk (replaceListAux pat.toList repl.toList s.toList.length s.toList)

/-- The cleaning prelude of `gemini_service._safe_json_loads`:
`text.strip()`, then removal of the fenced code-block markers, then a
final strip. -/
def cleanResponse (text : String) : String :=
  pyStrip (pyReplace (pyReplace (pyStrip text) ("```json") ("")) ("```") (""))

/-- Model of `gemini_service._safe_json_loads`: try a direct parse of the cleaned
text; on a parse failure fall back to parsing the substring from the first
brace-open to the last brace-close when both are present, and re-raise
(`none`) otherwise. The JSON parser itself (`json.loads`) is the abstract
parameter `jloads`; `none` models a raised `JSONDecodeError`. -/
def safe_json_loads {α : Type _} (jloads : String → Option α)
    (text : String) : Option α :=
  let cleaned := cleanResponse text
  match jloads cleaned with
  | some v => some v
  | none =>
      let cs := cleaned.toList
      match cs.indexOf? '{', cs.reverse.indexOf? '}' with
      | some start, some rend =>
          jloads (String.mk
            ((cs.drop start).take (cs.length - 1 - rend + 1 - start)))
      | _, _ => none

/-- C9. When the direct parse of the cleaned text fails and the cleaned
text holds both a brace-open (first occurrence at index `s`) and a
brace-close (last occurrence at index `length - 1 - r`, found at index `r`
from the right), `_safe_json_loads` returns the parse of the inclusive
substring between those two positions. -/
theorem safe_json_loads_recovers {α : Type _} (jloads : String → Option α)
    (text : String) (s r : Nat)
    (hfail : jloads (cleanResponse text) = none)
    (hs : (cleanResponse text).toList.indexOf? '{' = some s)
    (hr : (cleanResponse text).toList.reverse.indexOf? '}' = some r) :
    safe_json_loads jloads text
      = jloads (String.mk
          (((cleanResponse text).toList.drop s).take
            ((cleanResponse text).toList.length - 1 - r + 1 - s))) := by
  simp only [safe_json_loads]
  rw [hfail, hs, hr]

/-- Witness for C9: a parser accepting only the three-character object
body, and a response that wraps it in prose on both sides. -/
theorem safe_json_loads_recovers_witness :
    ((fun t => if t = String.mk ['{', 'x', '}'] then some 1 else none)
        (cleanResponse ("noise " ++ String.mk ['{', 'x', '}'] ++ " tail"))
        = none)
    ∧ ((cleanResponse
          ("noise " ++ String.mk ['{', 'x', '}'] ++ " tail")).toList.indexOf?
          '{' = some 6)
    ∧ ((cleanResponse
          ("noise " ++ String.mk ['{', 'x', '}'] ++ " tail")).toList.reverse.indexOf?
          '}' = some 5)
    ∧ safe_json_loads
        (fun t => if t = String.mk ['{', 'x', '}'] then some 1 else none)
        ("noise " ++ String.mk ['{', 'x', '}'] ++ " tail")
      = (fun t => if t = String.mk ['{', 'x', '}'] then some 1 else none)
          (String.mk
            (((cleanResponse
                ("noise " ++ String.mk ['{', 'x', '}'] ++ " tail")).toList.drop 6).take
              ((cleanResponse
                ("noise " ++ String.mk ['{', 'x', '}'] ++ " tail")).toList.length
                - 1 - 5 + 1 - 6))) :=
  ⟨by decide, by decide, by decide,
    safe_json_loads_recovers
      (fun t => if t = String.mk ['{', 'x', '}'] then some 1 else none)
      ("noise " ++ String.mk ['{', 'x', '}'] ++ " tail") 6 5
      (by decide) (by decide) (by decide)⟩

/-- Python `str.upper()`. -/
def pyUpper (s : String) : String :=
  String.mk (s.toList.map Char.toUpper)

/-- The parsed JSON payload a judge backend returns to `_gemini_evaluate`;
each field models `data.get(...)`, absent keys being `none`. -/
structure GeminiPayload where
  correct_answer : Option String
  is_correct : Option Bool
  explanation : Option String
deriving DecidableEq

/-- Model of `gemini_service._gemini_evaluate`. The ambient environment is passed
explicitly: `api_key` is the `GEMINI_API_KEY` value (`none` when unset),
`primary` is the outcome of the primary model call-and-parse and
`fallback` that of the fallback model (`none` when that attempt raises).
An empty or missing key short-circuits to the configured-key placeholder;
a double failure returns the unavailability placeholder; otherwise the
parsed payload is normalised. -/
def gemini_evaluate (api_key : Option String)
    (primary fallback : Option GeminiPayload) (question : String)
    (options : List (String × String)) (user_answer : String) : Evaluation :=
  if (api_key.getD ("")).isEmpty then
    { correct_answer := "A", is_correct := user_answer == "A",
      explanation := "API key not configured. Using placeholder evaluation." }
  else
    match primary.orElse (fun _ => fallback) with
    | some data =>
        { correct_answer := pyUpper (pyStrip (data.correct_answer.getD (""))),
          is_correct := data.is_correct.getD false,
          explanation := pyStrip (data.explanation.getD ("")) }
    | none =>
        { correct_answer := "A", is_correct := user_answer == "A",
          explanation := "Evaluation unavailable" }

/-- C7. When the adapter is unconfigured (no or empty API key) or both the
primary and the fallback backend attempts fail, `_gemini_evaluate` returns
the deterministic placeholder: `correct_answer = "A"`, `is_correct` equal
to whether the user answered `"A"`, and a non-empty explanation that is
one of the two canned unconfigured/unavailable messages. -/
theorem gemini_evaluate_placeholder (api_key : Option String)
    (primary fallback : Option GeminiPayload) (question : String)
    (options : List (String × String)) (user_answer : String)
    (h : (api_key.getD ("")).isEmpty = true
      ∨ (primary = none ∧ fallback = none)) :
    (gemini_evaluate api_key primary fallback question options
        user_answer).correct_answer = "A"
      ∧ (gemini_evaluate api_key primary fallback question options
          user_answer).is_correct = (user_answer == "A")
      ∧ ((gemini_evaluate api_key primary fallback question options
            user_answer).explanation
          = "API key not configured. Using placeholder evaluation."
        ∨ (gemini_evaluate api_key primary fallback question options
            user_answer).explanation = "Evaluation unavailable")
      ∧ (gemini_evaluate api_key primary fallback question options
          user_answer).explanation ≠ "" := by
  rcases h with h | ⟨hp, hf⟩
  · rw [gemini_evaluate, if_pos h]
    exact ⟨rfl, rfl, Or.inl rfl,
      (by decide :
        ("API key not configured. Using placeholder evaluation." : String)
          ≠ "")⟩
  · by_cases hk : (api_key.getD ("")).isEmpty = true
    · rw [gemini_evaluate, if_pos hk]
      exact ⟨rfl, rfl, Or.inl rfl,
        (by decide :
          ("API key not configured. Using placeholder evaluation." : String)
            ≠ "")⟩
    · rw [gemini_evaluate, if_neg hk, hp, hf]
      exact ⟨rfl, rfl, Or.inr rfl,
        (by decide : ("Evaluation unavailable" : String) ≠ "")⟩

/-- Witness for C7: unset API key, a payload available from the primary
backend, user answer `"B"`. -/
theorem gemini_evaluate_placeholder_witness :
    ((Option.getD (none : Option String) ("")).isEmpty = true
      ∨ ((some { correct_answer := some "C", is_correct := some true,
                 explanation := some "why" } : Option GeminiPayload) = none
          ∧ (none : Option GeminiPayload) = none))
    ∧ (gemini_evaluate none
        (some { correct_answer := some "C", is_correct := some true,
                explanation := some "why" }) none "q" [] "B").correct_answer
      = "A"
    ∧ (gemini_evaluate none
        (some { correct_answer := some "C", is_correct := some true,
                explanation := some "why" }) none "q" [] "B").is_correct
      = ("B" == "A")
    ∧ ((gemini_evaluate none
          (some { correct_answer := some "C", is_correct := some true,
                  explanation := some "why" }) none "q" [] "B").explanation
        = "API key not configured. Using placeholder evaluation."
      ∨ (gemini_evaluate none
          (some { correct_answer := some "C", is_correct := some true,
                  explanation := some "why" }) none "q" [] "B").explanation
        = "Evaluation unavailable")
    ∧ (gemini_evaluate none
        (some { correct_answer := some "C", is_correct := some true,
                explanation := some "why" }) none "q" [] "B").explanation
      ≠ "" :=
  ⟨Or.inl (by decide),
    gemini_evaluate_placeholder none
      (some { correct_answer := some "C", is_correct := some true,
              explanation := some "why" }) none "q" [] "B"
      (Or.inl (by decide))⟩
